import Mathlib

/-!
Shallow embedding of the zygisau/live-reload repository (Go).

The embedded functions follow src/live.go, src/reloader.go and the two
unnamed source parts.  Machine integers are modelled as Nat with explicit
reduction mod 2^w where the Go code can overflow (uint64 versionCounter,
uint8 in AddClamp).  Strings are ASCII, so Go byte slicing coincides with
slicing the character list of a Lean String.
-/

/-- `TemplateExt` constant from src/live.go: extension of template files. -/
def TemplateExt : String := ".html"

/-- `TemplatePath` constant from src/live.go: watch-root directory. -/
def TemplatePath : String := "./"

/-- Modulus of the Go uint64 type of `versionCounter`. -/
def UINT64_MOD : Nat := 2 ^ 64

/-- Go slice `s[0:n]` over the characters of an ASCII string. -/
def takeChars (s : String) (n : Nat) : String := ⟨s.data.take n⟩

/-- Go slice `s[n:]` over the characters of an ASCII string. -/
def dropChars (s : String) (n : Nat) : String := ⟨s.data.drop n⟩

/-- A compiled `html/template` value; `template.Must(template.ParseFiles(name))`
is deterministic in the file at `name`, so we track the compiled template by
the path it was parsed from. -/
structure Template where
  source : String
deriving DecidableEq

/-- Model of `template.Must(template.ParseFiles(name))`. -/
def parseFiles (name : String) : Template := ⟨name⟩

/-- The suffix test from src/reloader.go `reload`:
`len(name) >= len(TemplateExt) && name[len(name)-len(TemplateExt):] == TemplateExt`. -/
def hasTemplateExt (name : String) : Bool :=
  decide (TemplateExt.length ≤ name.length) &&
    (dropChars name (name.length - TemplateExt.length) == TemplateExt)

/-- The map key computed by `reload`: `name[0 : len(name)-len(TemplateExt)]`. -/
def templateKey (name : String) : String :=
  takeChars name (name.length - TemplateExt.length)

/-- `reload` from src/reloader.go lines 82-109.  The template map of the
`Reloader` is modelled as a function `String → Option Template` (a Go map);
the returned `Except` is the Go `error` result, carrying the new map on
success. -/
def reload (templates : String → Option Template) (name : String) :
    Except String (String → Option Template) :=
  if name = TemplatePath ++ "reload.go" then
    Except.ok templates
  else if hasTemplateExt name then
    let tmpl := parseFiles name
    let key := templateKey name
    Except.ok (fun k => if k = key then some tmpl else templates k)
  else
    Except.error ("Unable to reload file " ++ name)

/-- The template map after `reload` (unchanged when `reload` errors, since an
error leaves `r.templates` untouched). -/
def reloadStore (templates : String → Option Template) (name : String) :
    String → Option Template :=
  match reload templates name with
  | Except.ok ts => ts
  | Except.error _ => templates

/-- The fsnotify operation kinds (`fsnotify.Op`). -/
inductive FsOp
  | create
  | write
  | remove
  | rename
  | chmod
deriving DecidableEq

/-- A filesystem event as consumed by the watcher loop: operation kind and
path (`evt.Op`, `evt.Name`). -/
structure FsEvent where
  op : FsOp
  name : String
deriving DecidableEq

/-- `eventIsWanted` from src/reloader.go lines 73-80. -/
def eventIsWanted : FsOp → Bool
  | FsOp.write => true
  | FsOp.create => true
  | _ => false

/-- The mutable state touched by the watcher goroutine: the uint64
`versionCounter` (kept < 2^64) and the template map. -/
structure WatcherState where
  versionCounter : Nat
  templates : String → Option Template

/-- Observable side effects of one watcher iteration. -/
inductive WatchAction
  | reloadAttempt (name : String)
  | broadcast
deriving DecidableEq

/-- One iteration of the `Watch` event loop (src/reloader.go lines 50-71) on
a filesystem event: if the event is wanted, `reload` runs (its error is only
printed), then `versionCounter` is incremented with uint64 wraparound and
`broadcastCond.Broadcast()` fires; otherwise nothing happens. -/
def watchStep (st : WatcherState) (e : FsEvent) : WatcherState × List WatchAction :=
  if eventIsWanted e.op then
    let templates' :=
      match reload st.templates e.name with
      | Except.ok ts => ts
      | Except.error _ => st.templates
    ({ versionCounter := (st.versionCounter + 1) % UINT64_MOD, templates := templates' },
      [WatchAction.reloadAttempt e.name, WatchAction.broadcast])
  else
    (st, [])

/-- The `Watch` loop folded over a finite list of incoming events. -/
def watchRun (st : WatcherState) (evts : List FsEvent) : WatcherState :=
  evts.foldl (fun s e => (watchStep s e).1) st

/-- What one `waitForBroadcast` iteration observes: the `versionCounter`
snapshot taken at the top of the loop (`oldVersion`), the counter value read
after `broadcastCond.Wait()` returns, and whether the write on the
connection succeeds. -/
structure WakeObs where
  snap : Nat
  wake : Nat
  sendOk : Bool
deriving DecidableEq

/-- Outbound websocket messages of `waitForBroadcast`: a ping control frame
with its payload, or a JSON message `websocketEvent{Type: ...}`. -/
inductive WsMsg
  | ping (payload : List Nat)
  | json (eventType : String)
deriving DecidableEq

/-- The message one iteration of `waitForBroadcast` (src/live.go lines
160-186) sends: `oldVersion == versionCounter` means the wake was not a real
change, so a ping with empty payload probes liveness; any other value means
a build completed. -/
def iterationMsg (oldVersion current : Nat) : WsMsg :=
  if oldVersion = current then WsMsg.ping [] else WsMsg.json "build_complete"

/-- The `waitForBroadcast` loop over a finite prefix of wake observations:
returns the messages written to the connection and whether the loop exited
through `break` after a failed write.  A successful write loops back and
takes a fresh snapshot (the next observation carries it); a failed write
breaks out of the loop immediately. -/
def sessionTrace : List WakeObs → List WsMsg × Bool
  | [] => ([], false)
  | o :: rest =>
    let msg := iterationMsg o.snap o.wake
    if o.sendOk then
      let r := sessionTrace rest
      (msg :: r.1, r.2)
    else
      ([msg], true)

/-- State of the `sync.RWMutex` embedded in `Reloader`. -/
structure RWMutexState where
  readers : Nat
  writerHeld : Bool
deriving DecidableEq

/-- The run-time fault Go raises on a lock-discipline violation
(`fatal error: sync: Unlock of unlocked RWMutex`). -/
inductive LockFault
  | unlockOfUnlockedRWMutex
deriving DecidableEq

/-- `RLock` acquires the read side (the caller blocks until no writer holds
the lock, so acquisition itself never faults). -/
def RLock (m : RWMutexState) : RWMutexState :=
  { m with readers := m.readers + 1 }

/-- `Unlock` releases the WRITE side; calling it when the write side is not
held is a fatal run-time error in Go. -/
def Unlock (m : RWMutexState) : Except LockFault RWMutexState :=
  if m.writerHeld then Except.ok { m with writerHeld := false }
  else Except.error LockFault.unlockOfUnlockedRWMutex

/-- `Get` from src/reloader.go lines 19-26: `r.RLock()`, `defer r.Unlock()`,
then the map lookup with the comma-ok idiom, returning nil when absent.  The
deferred `Unlock` runs when the function returns. -/
def Get (templates : String → Option Template) (m : RWMutexState) (name : String) :
    Except LockFault (Option Template × RWMutexState) := do
  let m1 := RLock m
  let result :=
    match templates name with
    | some t => some t
    | none => none
  let m2 ← Unlock m1
  Except.ok (result, m2)

/-- The Go panic message of a nil `*Template` method call. -/
def nilDerefMsg : String := "runtime error: invalid memory address or nil pointer dereference"

/-- How a call to `render` ends: an ordinary return carrying the Go error
value, or a panic. -/
inductive RenderOutcome
  | ret (err : Option String)
  | panicked (msg : String)
deriving DecidableEq

/-- `render` from src/unnamed/part_001 (also src/live.go lines 214-220):
`tmpl := r.templates[name]` yields nil when `name` is absent, so
`tmpl.Execute` dereferences a nil pointer; when `Execute` returns a non-nil
error the code panics with it; otherwise the nil error is returned.  The
external template engine is the parameter `exec`, giving the error (if any)
of executing a template on the data. -/
def render {δ : Type} (templates : String → Option Template)
    (exec : Template → δ → Option String) (name : String) (data : δ) : RenderOutcome :=
  match templates name with
  | none => RenderOutcome.panicked nilDerefMsg
  | some tmpl =>
    match exec tmpl data with
    | some e => RenderOutcome.panicked e
    | none => RenderOutcome.ret none

/-- `AddClamp` from src/live.go lines 85-87: `f + 1%255` on uint8, where
`1%255` is the constant 1 and the addition wraps mod 256. -/
def LiveGo.AddClamp (f : Nat) : Nat := (f + 1 % 255) % 256

/-- `AddClamp` from src/reloader.go lines 46-48: `(f + 1) % 255` on uint8,
where the addition wraps mod 256 before the remainder is taken. -/
def ReloaderGo.AddClamp (f : Nat) : Nat := ((f + 1) % 256) % 255

/-- C1: upon waking, an iteration of `waitForBroadcast` whose snapshot equals
the current counter sends exactly one empty-payload ping and nothing else;
an iteration observing any different value sends exactly one
`build_complete` JSON notification and no ping (the branch depends on
equality only); each iteration contributes exactly its single message to the
trace, and after a successful send the loop repeats on the remaining wake
observations, each carrying its own fresh snapshot. -/
theorem waitForBroadcast_diff_correct (o : WakeObs) (rest : List WakeObs) :
    (o.snap = o.wake → iterationMsg o.snap o.wake = WsMsg.ping []) ∧
    (o.snap ≠ o.wake → iterationMsg o.snap o.wake = WsMsg.json "build_complete") ∧
    ((sessionTrace (o :: rest)).1.head? = some (iterationMsg o.snap o.wake)) ∧
    (o.sendOk = true → sessionTrace (o :: rest) =
      (iterationMsg o.snap o.wake :: (sessionTrace rest).1, (sessionTrace rest).2)) ∧
    (o.sendOk = false → sessionTrace (o :: rest) = ([iterationMsg o.snap o.wake], true)) := by
  refine ⟨?_, ?_, ?_, ?_, ?_⟩
  · intro h
    simp [iterationMsg, h]
  · intro h
    simp [iterationMsg, h]
  · cases hok : o.sendOk <;> simp [sessionTrace, hok]
  · intro h
    simp [sessionTrace, h]
  · intro h
    simp [sessionTrace, h]

theorem waitForBroadcast_diff_correct_witness :
    iterationMsg 3 3 = WsMsg.ping [] ∧
    iterationMsg 3 4 = WsMsg.json "build_complete" ∧
    sessionTrace [⟨3, 3, true⟩] = ([iterationMsg 3 3], false) :=
  ⟨(waitForBroadcast_diff_correct ⟨3, 3, true⟩ []).1 rfl,
   (waitForBroadcast_diff_correct ⟨3, 4, true⟩ []).2.1 (by decide),
   (waitForBroadcast_diff_correct ⟨3, 3, true⟩ []).2.2.2.1 rfl⟩

/-- C4: if every send before some wake observation succeeded and the send of
that observation fails, the session trace consists of exactly the messages
up to and including the failing one — the loop breaks, nothing is sent
afterwards (whatever wakes follow), and there is no retry. -/
theorem session_terminates_on_send_failure (pre : List WakeObs) (o : WakeObs)
    (post : List WakeObs) (hpre : ∀ x ∈ pre, x.sendOk = true)
    (hfail : o.sendOk = false) :
    sessionTrace (pre ++ o :: post) =
      (pre.map (fun x => iterationMsg x.snap x.wake) ++ [iterationMsg o.snap o.wake],
        true) := by
  induction pre with
  | nil => simp [sessionTrace, hfail]
  | cons x xs ih =>
    have hx : x.sendOk = true := hpre x (List.mem_cons_self x xs)
    have hxs : ∀ y ∈ xs, y.sendOk = true := fun y hy => hpre y (List.mem_cons_of_mem x hy)
    simp [sessionTrace, hx, ih hxs]

theorem session_terminates_on_send_failure_witness :
    sessionTrace [⟨1, 1, true⟩, ⟨1, 2, false⟩, ⟨2, 2, true⟩] =
      ([iterationMsg 1 1, iterationMsg 1 2], true) :=
  session_terminates_on_send_failure [⟨1, 1, true⟩] ⟨1, 2, false⟩ [⟨2, 2, true⟩]
    (by decide) rfl

/-- C6: a remove, rename or chmod event leaves the watcher state untouched
and performs no action at all (no reload attempt, no counter increment),
while a write or create event on a path with the template suffix both
attempts the reload — storing the recompiled template under its key — and
increments the version counter (with uint64 wraparound), broadcasting
afterwards. -/
theorem event_filter_correct (st : WatcherState) (e : FsEvent) :
    ((e.op = FsOp.remove ∨ e.op = FsOp.rename ∨ e.op = FsOp.chmod) →
      watchStep st e = (st, [])) ∧
    ((e.op = FsOp.write ∨ e.op = FsOp.create) → hasTemplateExt e.name = true →
      (watchStep st e).1.versionCounter = (st.versionCounter + 1) % UINT64_MOD ∧
      (watchStep st e).1.templates (templateKey e.name) = some (parseFiles e.name) ∧
      (watchStep st e).2 = [WatchAction.reloadAttempt e.name, WatchAction.broadcast]) := by
  obtain ⟨op, name⟩ := e
  constructor
  · rintro (h | h | h) <;> subst h <;> rfl
  · rintro (h | h) hext <;> subst h <;>
    · have hne : name ≠ TemplatePath ++ "reload.go" := by
        intro heq
        rw [heq] at hext
        exact absurd hext (by decide)
      refine ⟨rfl, ?_, rfl⟩
      simp only [watchStep, eventIsWanted, if_true, reload, hne, if_neg, hext, if_pos]
      simp [reload, hne, hext]

theorem event_filter_correct_witness :
    watchStep ⟨0, fun _ => none⟩ ⟨FsOp.remove, "a.html"⟩ = (⟨0, fun _ => none⟩, []) ∧
    (watchStep ⟨0, fun _ => none⟩ ⟨FsOp.write, "a.html"⟩).1.templates (templateKey "a.html") =
      some (parseFiles "a.html") :=
  ⟨(event_filter_correct ⟨0, fun _ => none⟩ ⟨FsOp.remove, "a.html"⟩).1 (Or.inl rfl),
   ((event_filter_correct ⟨0, fun _ => none⟩ ⟨FsOp.write, "a.html"⟩).2 (Or.inl rfl)
      (by decide)).2.1⟩

/-- C7: `reload` returns the non-fatal unable-to-reload error exactly when
the name lacks the template extension and is not the hardcoded
self-reference path `./reload.go`, which is a no-op guard returning no error
and leaving the store unchanged; a name with the extension succeeds with the
updated store; and the watcher loop always proceeds to the remaining events
after any event, so the error never stops it. -/
theorem reload_error_characterization (ts : String → Option Template) (name : String) :
    (name = TemplatePath ++ "reload.go" → reload ts name = Except.ok ts) ∧
    (name ≠ TemplatePath ++ "reload.go" → hasTemplateExt name = false →
      reload ts name = Except.error ("Unable to reload file " ++ name)) ∧
    (hasTemplateExt name = true →
      reload ts name =
        Except.ok (fun k => if k = templateKey name then some (parseFiles name) else ts k)) ∧
    (∀ st evts, watchRun st (FsEvent.mk FsOp.write name :: evts) =
      watchRun ((watchStep st (FsEvent.mk FsOp.write name)).1) evts) := by
  refine ⟨?_, ?_, ?_, ?_⟩
  · intro h
    simp [reload, h]
  · intro hne hext
    simp [reload, hne, hext]
  · intro hext
    have hne : name ≠ TemplatePath ++ "reload.go" := by
      intro heq
      rw [heq] at hext
      exact absurd hext (by decide)
    simp [reload, hne, hext]
  · intro st evts
    rfl

theorem reload_error_characterization_witness :
    reload (fun _ => none) (TemplatePath ++ "reload.go") = Except.ok (fun _ => none) ∧
    reload (fun _ => none) "notes.txt" = Except.error ("Unable to reload file " ++ "notes.txt") ∧
    reload (fun _ => none) "a.html" =
      Except.ok (fun k => if k = templateKey "a.html" then some (parseFiles "a.html") else none) :=
  ⟨(reload_error_characterization (fun _ => none) (TemplatePath ++ "reload.go")).1 rfl,
   (reload_error_characterization (fun _ => none) "notes.txt").2.1 (by decide) (by decide),
   (reload_error_characterization (fun _ => none) "a.html").2.2.1 (by decide)⟩

/-- C2 counterexample: a write event on `notes.txt` makes `reload` fail with
the unable-to-reload error, yet the watcher increments `versionCounter` from
5 to 6 — the counter is NOT unchanged on error, refuting the claim at this
concrete input. -/
theorem watch_increments_on_reload_error_cex :
    reload (fun _ => none) "notes.txt" = Except.error ("Unable to reload file " ++ "notes.txt") ∧
    (watchStep ⟨5, fun _ => none⟩ ⟨FsOp.write, "notes.txt"⟩).1.versionCounter = 6 :=
  ⟨rfl, rfl⟩

/-- C2 amended: when a wanted event's path fails to reload, the error leaves
the template store unchanged and the loop continues (the iteration still
broadcasts), but `versionCounter` is incremented all the same — the
increment is unconditional for every wanted event. -/
theorem watch_increment_unconditional (st : WatcherState) (e : FsEvent)
    (hw : eventIsWanted e.op = true) (msg : String)
    (herr : reload st.templates e.name = Except.error msg) :
    (watchStep st e).1.versionCounter = (st.versionCounter + 1) % UINT64_MOD ∧
    (watchStep st e).1.templates = st.templates ∧
    (watchStep st e).2 = [WatchAction.reloadAttempt e.name, WatchAction.broadcast] := by
  simp [watchStep, hw, herr]

theorem watch_increment_unconditional_witness :
    (watchStep ⟨5, fun _ => none⟩ ⟨FsOp.write, "notes.txt"⟩).1.versionCounter =
      (5 + 1) % UINT64_MOD ∧
    (watchStep ⟨5, fun _ => none⟩ ⟨FsOp.write, "notes.txt"⟩).1.templates = (fun _ => none) ∧
    (watchStep ⟨5, fun _ => none⟩ ⟨FsOp.write, "notes.txt"⟩).2 =
      [WatchAction.reloadAttempt "notes.txt", WatchAction.broadcast] :=
  watch_increment_unconditional ⟨5, fun _ => none⟩ ⟨FsOp.write, "notes.txt"⟩ rfl
    ("Unable to reload file " ++ "notes.txt") rfl

/-- C3 counterexample: with the counter at `2^64 - 1`, one accepted write
event wraps it to 0, which differs from before-plus-one and is strictly
below the previous value — refuting both the exact-sum and the
non-decreasing parts of the claim at this concrete input. -/
theorem versionCounter_wraparound_cex :
    (watchRun ⟨UINT64_MOD - 1, fun _ => none⟩ [⟨FsOp.write, "a.html"⟩]).versionCounter = 0 ∧
    (UINT64_MOD - 1) + 1 ≠ 0 ∧
    (0 : Nat) < UINT64_MOD - 1 := by
  refine ⟨by decide, by decide, by decide⟩

/-- C3 amended: over any finite sequence of accepted (wanted) events the
counter after the run equals the counter before plus the number of events,
reduced mod 2^64; when no 64-bit wraparound occurs the sum is exact, so the
counter never decreases and is never reset. -/
theorem watchRun_counter_add_mod (st : WatcherState) (evts : List FsEvent)
    (hv : st.versionCounter < UINT64_MOD)
    (hw : ∀ e ∈ evts, eventIsWanted e.op = true) :
    (watchRun st evts).versionCounter = (st.versionCounter + evts.length) % UINT64_MOD ∧
    (st.versionCounter + evts.length < UINT64_MOD →
      (watchRun st evts).versionCounter = st.versionCounter + evts.length ∧
      st.versionCounter ≤ (watchRun st evts).versionCounter) := by
  have main : ∀ (l : List FsEvent) (s : WatcherState), s.versionCounter < UINT64_MOD →
      (∀ e ∈ l, eventIsWanted e.op = true) →
      (watchRun s l).versionCounter = (s.versionCounter + l.length) % UINT64_MOD := by
    intro l
    induction l with
    | nil =>
      intro s hs _
      simpa [watchRun] using (Nat.mod_eq_of_lt hs).symm
    | cons e l ih =>
      intro s hs hl
      have he : eventIsWanted e.op = true := hl e (List.mem_cons_self e l)
      have hstep : (watchStep s e).1.versionCounter = (s.versionCounter + 1) % UINT64_MOD := by
        simp only [watchStep, he, if_true]
      have hlt : ((watchStep s e).1).versionCounter < UINT64_MOD := by
        rw [hstep]
        exact Nat.mod_lt _ (by decide)
      have := ih ((watchStep s e).1) hlt (fun x hx => hl x (List.mem_cons_of_mem e hx))
      calc (watchRun s (e :: l)).versionCounter
          = (watchRun ((watchStep s e).1) l).versionCounter := rfl
        _ = (((watchStep s e).1).versionCounter + l.length) % UINT64_MOD := this
        _ = ((s.versionCounter + 1) % UINT64_MOD + l.length) % UINT64_MOD := by rw [hstep]
        _ = (s.versionCounter + 1 + l.length) % UINT64_MOD := Nat.mod_add_mod _ _ _
        _ = (s.versionCounter + (e :: l).length) % UINT64_MOD := by
            simp [Nat.add_assoc, Nat.add_comm 1 l.length]
  have h1 := main evts st hv hw
  refine ⟨h1, ?_⟩
  intro hsum
  have h2 : (watchRun st evts).versionCounter = st.versionCounter + evts.length := by
    rw [h1, Nat.mod_eq_of_lt hsum]
  exact ⟨h2, by rw [h2]; exact Nat.le_add_right _ _⟩

theorem watchRun_counter_add_mod_witness :
    (watchRun ⟨0, fun _ => none⟩ [⟨FsOp.write, "a.html"⟩, ⟨FsOp.create, "b.html"⟩]).versionCounter
      = (0 + 2) % UINT64_MOD ∧
    (0 + 2 < UINT64_MOD →
      (watchRun ⟨0, fun _ => none⟩
        [⟨FsOp.write, "a.html"⟩, ⟨FsOp.create, "b.html"⟩]).versionCounter = 0 + 2 ∧
      0 ≤ (watchRun ⟨0, fun _ => none⟩
        [⟨FsOp.write, "a.html"⟩, ⟨FsOp.create, "b.html"⟩]).versionCounter) :=
  watchRun_counter_add_mod ⟨0, fun _ => none⟩
    [⟨FsOp.write, "a.html"⟩, ⟨FsOp.create, "b.html"⟩] (by decide) (by decide)

/-- C5 counterexample: reloading the path `./index.html` (watch root `./`,
so the claimed key, prefix and extension stripped, is `index`) stores the
template under `./index` and leaves nothing under `index` — the code never
strips the watch-root prefix, refuting the claim at this concrete input. -/
theorem reload_key_keeps_root_cex :
    templateKey "./index.html" = "./index" ∧
    reloadStore (fun _ => none) "./index.html" "index" = none ∧
    reloadStore (fun _ => none) "./index.html" "./index" = some (parseFiles "./index.html") := by
  refine ⟨by decide, by decide, by decide⟩

/-- C5 amended: a successful reload of a path with the template extension
stores the recompiled template under the key equal to the path with only the
extension stripped (no prefix stripping, so `templates/index.html` lands at
`templates/index`), replacing any prior entry under that key wholesale and
leaving every other key untouched. -/
theorem reload_stores_ext_stripped_key (ts : String → Option Template) (name : String)
    (hext : hasTemplateExt name = true) :
    reloadStore ts name (templateKey name) = some (parseFiles name) ∧
    (∀ k, k ≠ templateKey name → reloadStore ts name k = ts k) := by
  have hne : name ≠ TemplatePath ++ "reload.go" := by
    intro heq
    rw [heq] at hext
    exact absurd hext (by decide)
  constructor
  · simp [reloadStore, reload, hne, hext]
  · intro k hk
    simp [reloadStore, reload, hne, hext, hk]

theorem reload_stores_ext_stripped_key_witness :
    reloadStore (fun _ => none) "templates/index.html" (templateKey "templates/index.html") =
      some (parseFiles "templates/index.html") ∧
    (∀ k, k ≠ templateKey "templates/index.html" →
      reloadStore (fun _ => none) "templates/index.html" k = none) :=
  reload_stores_ext_stripped_key (fun _ => none) "templates/index.html" (by decide)

/-- C8: evaluating `Get` from an unlocked mutex: the code acquires the read
side with `RLock` but its deferred release calls `Unlock`, the write-side
release, which is a fatal lock-discipline fault in Go — the call never
completes with the lookup result, whether the name is present or absent. -/
theorem Get_lock_discipline_fault :
    Get (fun _ => none) ⟨0, false⟩ "index" =
      Except.error LockFault.unlockOfUnlockedRWMutex ∧
    Get (fun n => if n = "index" then some (parseFiles "index.html") else none)
      ⟨0, false⟩ "index" = Except.error LockFault.unlockOfUnlockedRWMutex :=
  ⟨rfl, rfl⟩

/-- C9 counterexample: at input 254 the two `AddClamp` definitions disagree:
the one in src/live.go yields 255 while the one in src/reloader.go yields 0,
refuting equality for every uint8 input. -/
theorem AddClamp_diverge_at_254 :
    LiveGo.AddClamp 254 = 255 ∧ ReloaderGo.AddClamp 254 = 0 ∧
    LiveGo.AddClamp 254 ≠ ReloaderGo.AddClamp 254 := by
  refine ⟨by decide, by decide, by decide⟩

set_option maxRecDepth 2048 in
/-- C9 amended: the two `AddClamp` definitions agree on every uint8 input
except 254, where they diverge. -/
theorem AddClamp_agree_off_254 (f : Nat) (h : f < 256) (hne : f ≠ 254) :
    LiveGo.AddClamp f = ReloaderGo.AddClamp f := by
  have H : ∀ g : Fin 256, g.val ≠ 254 → LiveGo.AddClamp g.val = ReloaderGo.AddClamp g.val := by
    decide
  exact H ⟨f, h⟩ hne

theorem AddClamp_agree_off_254_witness :
    LiveGo.AddClamp 7 = ReloaderGo.AddClamp 7 :=
  AddClamp_agree_off_254 7 (by decide) (by decide)

/-- C10: `render` never returns a non-nil error to its caller: a
template-execution error is re-raised as a panic, and a name absent from the
store leads to a nil-template dereference (a panic) rather than an absent
result; the only ordinary return carries the nil error. -/
theorem render_never_returns_error {δ : Type} (templates : String → Option Template)
    (exec : Template → δ → Option String) (name : String) (data : δ) :
    (∀ e, render templates exec name data ≠ RenderOutcome.ret (some e)) ∧
    (templates name = none →
      render templates exec name data = RenderOutcome.panicked nilDerefMsg) ∧
    (∀ t e, templates name = some t → exec t data = some e →
      render templates exec name data = RenderOutcome.panicked e) := by
  refine ⟨?_, ?_, ?_⟩
  · intro e
    unfold render
    cases h : templates name with
    | none => simp
    | some t =>
      cases h2 : exec t data <;> simp [h2]
  · intro h
    simp [render, h]
  · intro t e h h2
    simp [render, h, h2]

theorem render_never_returns_error_witness :
    render (fun _ => none) (fun (_ : Template) (_ : Unit) => none) "index" () =
      RenderOutcome.panicked nilDerefMsg :=
  (render_never_returns_error (fun _ => none) (fun _ _ => none) "index" ()).2.1 rfl

